import Mathlib

/-!
Shallow embedding of the `all-in-one` process lifecycle orchestrator of
`projeto-otel-na-pratica`.

The repository contains two divergent variants of the orchestrator's `main`
function:

* variant A — `cmd/all-in-one/main.go`: discards the config-load error
  (`c, _ := config.LoadConfig(...)`, the fatal branch is commented out),
  panics on a payment-construction error, discards the payment shutdown
  error inside its deferred call, and treats every `http.ListenAndServe`
  error (including `http.ErrServerClosed`) as `logger.Fatal`;
* variant B — the unnamed source file: wires a tracing span, but after
  `c, _ := config.LoadConfig(...)` it tests the *stale* `err` still holding
  the telemetry-setup result (`if err != nil { logger.Fatal("failed to load
  the config", ...) }`), escalates a payment-shutdown error to
  `logger.Fatal` inside the deferred call, and distinguishes
  `http.ErrServerClosed` from other serve errors (others are logged at
  Error severity, not Fatal).

Both variants are straight-line Go code whose behaviour is determined by the
outcomes of the external collaborator calls (telemetry setup, config load,
`net.Listen`, `app.NewPayment`, `payment.Shutdown`, `http.ListenAndServe`,
`grpcServer.Serve`).  Those collaborators live outside this core, so a run is
modelled by an `Env` record carrying each collaborator's result; `mainA` /
`mainB` map an `Env` to the ordered trace of observable events plus the
process outcome.

Go semantics embedded explicitly:

* `logger.Fatal` calls `os.Exit(1)`: the process terminates *without*
  running deferred calls (`Outcome.exitFatal`);
* `panic` unwinds the stack, running deferred calls LIFO, then the process
  dies (`Outcome.panicked`);
* a normal return also runs deferred calls LIFO (`Outcome.returned`);
* invoking a nil function value (the telemetry teardown handle, when setup
  returned a nil closer) panics at the call site;
* a deferred call that itself executes `logger.Fatal` exits the process at
  once, skipping the deferred calls below it on the stack.

The binary-transport serving loop runs on a separate goroutine; its body is
embedded separately as `grpcLoopA` / `grpcLoopB` (the cross-goroutine
interleaving itself is not modelled — only the body's own behaviour).
-/

namespace AllInOne

/-- Go error values as the orchestrator can distinguish them: the code only
ever compares an error against `nil` and (in variant B) against
`http.ErrServerClosed`, so an error is either the distinguished
`serverClosed` value or some other opaque error. -/
inductive GoErr where
  | serverClosed : GoErr
  | other : Nat → GoErr
deriving DecidableEq

/-- The four functional modules registered by the composition root, in their
declared order. -/
inductive Module where
  | user : Module
  | plan : Module
  | payment : Module
  | subscription : Module
deriving DecidableEq

/-- Observable actions of a run, in program order.  Log/print messages keep
the source strings (format arguments elided). -/
inductive Event where
  | printf : String → Event
  | logInfo : String → Event
  | logError : String → Event
  | logFatal : String → Event
  | spanStart : Event
  | spanAddEvent : String → Event
  | spanRecordError : Event
  | spanSetStatusError : Event
  | spanEnd : Event
  | loadConfig : Event
  | listen : Event
  | construct : Module → Event
  | register : Module → Event
  | goServeGrpc : Event
  | serveHTTP : Event
  | callShutdown : Event
  | callCloser : Event
  | nilCloserPanic : Event
deriving DecidableEq

/-- Process outcome of a run of `main`'s goroutine (or of the gRPC serving
goroutine's body). -/
inductive Outcome where
  | returned : Outcome
  | exitFatal : Outcome
  | panicked : Outcome
deriving DecidableEq

/-- Results of the external collaborator calls that determine a run.
`telemetry.Setup`, `config.LoadConfig` and the module constructors are
repository code outside this core, consumed only through their `(value,
error)` contracts, so each call's outcome is an input of the model:
`setupErr`/`closerNil` are the two components returned by telemetry setup
(the spec's contract `setup(path) -> (teardown, error)`), `configErr` the
error component of the config load, `listenErr` the result of binding the
gRPC listener, `payErr` the error from constructing the payment module,
`shutdownErr` the error from the payment module's shutdown operation, and
`httpErr` the value returned by `http.ListenAndServe`. -/
structure Env where
  setupErr : Option GoErr
  closerNil : Bool
  configErr : Option GoErr
  listenErr : Option GoErr
  payErr : Option GoErr
  shutdownErr : Option GoErr
  httpErr : Option GoErr
deriving DecidableEq

/-- The deferred calls pushed by the two variants: the telemetry teardown
(`defer closer(context.Background())`) and the payment shutdown closure of
each variant. -/
inductive DeferOp where
  | closerCall : DeferOp
  | paymentShutdownA : DeferOp
  | paymentShutdownB : DeferOp
deriving DecidableEq

/-- What executing one deferred call does to the unwinding: continue to the
next deferred call, exit the process at once (`logger.Fatal` inside the
deferred closure), or panic on a nil function value. -/
inductive DeferResult where
  | ok : DeferResult
  | exit : DeferResult
  | panicNil : DeferResult
deriving DecidableEq

/-- Execute one deferred call.  `closerCall` invokes the teardown handle:
with a nil handle the call site panics.  Variant A's payment closure runs
`_ = a.Shutdown()`, discarding the error.  Variant B's logs, runs
`a.Shutdown()`, and on error records it on the span and calls
`logger.Fatal`, which exits the process. -/
def runDefer (env : Env) : DeferOp → List Event × DeferResult
  | .closerCall =>
      if env.closerNil then ([.nilCloserPanic], .panicNil)
      else ([.callCloser], .ok)
  | .paymentShutdownA => ([.callShutdown], .ok)
  | .paymentShutdownB =>
      match env.shutdownErr with
      | none => ([.logInfo "Shutting down the payment service", .callShutdown], .ok)
      | some _ =>
          ([.logInfo "Shutting down the payment service", .callShutdown,
            .spanRecordError, .spanSetStatusError,
            .logFatal "Failed to shutdown the payment service"], .exit)

/-- Run a stack of deferred calls (head = most recently deferred, i.e. the
LIFO order Go uses).  A deferred call that exits or panics stops the
unwinding: the remaining deferred calls are skipped. -/
def runDefers (env : Env) : List DeferOp → List Event × DeferResult
  | [] => ([], .ok)
  | d :: ds =>
      let r := runDefer env d
      match r.2 with
      | .ok =>
          let rest := runDefers env ds
          (r.1 ++ rest.1, rest.2)
      | .exit => (r.1, .exit)
      | .panicNil => (r.1, .panicNil)

/-- Map the result of unwinding the deferred-call stack at a normal return
to the process outcome. -/
def outcomeOfDefers : DeferResult → Outcome
  | .ok => .returned
  | .exit => .exitFatal
  | .panicNil => .panicked

/-- Variant A (`cmd/all-in-one/main.go`): trace and outcome of the main
goroutine, given the collaborator results.  Line-by-line: telemetry setup
(error only printed), `defer closer(...)`, info log, `c, _ :=
config.LoadConfig(...)` (error discarded, fatal branch commented out),
`net.Listen` (error → `logger.Fatal`), user/plan construction+registration,
payment construction (error → `panic(err)`), payment registration plus
`defer func(){ _ = a.Shutdown() }()`, subscription, `go
grpcServer.Serve(...)`, `http.ListenAndServe` (any error →
`logger.Fatal`), final info log, then the deferred calls run LIFO. -/
def mainA (env : Env) : List Event × Outcome :=
  let setupEvents : List Event :=
    match env.setupErr with
    | some _ => [.printf "Failes to setup telemetry"]
    | none => []
  let t0 := setupEvents ++ [.logInfo "starting the all-in-one service", .loadConfig]
  match env.listenErr with
  | some _ => (t0 ++ [.logFatal "Failed to listen"], .exitFatal)
  | none =>
    let t1 := t0 ++ [.listen,
      .logInfo "Starting the user service", .construct .user, .register .user,
      .logInfo "Starting the plan service", .construct .plan, .register .plan,
      .logInfo "Starting the payment service", .construct .payment]
    match env.payErr with
    | some _ =>
        let d := runDefers env [.closerCall]
        (t1 ++ d.1, .panicked)
    | none =>
      let t2 := t1 ++ [.register .payment,
        .logInfo "Starting the subscriptions service",
        .construct .subscription, .register .subscription,
        .goServeGrpc, .serveHTTP]
      match env.httpErr with
      | some _ => (t2 ++ [.logFatal "Failed to serve"], .exitFatal)
      | none =>
        let t3 := t2 ++ [.logInfo "Stopping the all-i-one service"]
        let d := runDefers env [.paymentShutdownA, .closerCall]
        (t3 ++ d.1, outcomeOfDefers d.2)

/-- Variant B (the unnamed source file): trace and outcome of the main
goroutine.  Differences from variant A: a tracing span is started; after
`c, _ := config.LoadConfig(...)` the code tests the *stale* `err` still
holding the telemetry-setup error and on non-nil records it on the span and
calls `logger.Fatal("failed to load the config", ...)`; a
payment-construction error is `logger.Fatal`, not panic; the payment
shutdown closure escalates a shutdown error to `logger.Fatal`;
`http.ListenAndServe` errors other than `http.ErrServerClosed` are logged
at Error severity and execution falls through to the final info log and the
deferred calls. -/
def mainB (env : Env) : List Event × Outcome :=
  let setupEvents : List Event :=
    match env.setupErr with
    | some _ => [.printf "Failed to setup telemetry"]
    | none => []
  let t0 := setupEvents ++ [.spanStart,
    .logInfo "Starting the all-in-one service",
    .spanAddEvent "Starting the all-in-one service", .loadConfig]
  match env.setupErr with
  | some _ =>
      (t0 ++ [.spanRecordError, .spanSetStatusError,
        .logFatal "failed to load the config"], .exitFatal)
  | none =>
  match env.listenErr with
  | some _ =>
      (t0 ++ [.spanRecordError, .spanSetStatusError,
        .logFatal "failed to listen the config"], .exitFatal)
  | none =>
    let t1 := t0 ++ [.listen,
      .logInfo "Starting the user service", .spanAddEvent "Starting the user service",
      .construct .user, .register .user,
      .logInfo "Starting the plan service", .spanAddEvent "Starting the plan service",
      .construct .plan, .register .plan,
      .logInfo "Starting the payment service", .spanAddEvent "Starting the payment service",
      .construct .payment]
    match env.payErr with
    | some _ =>
        (t1 ++ [.spanRecordError, .spanSetStatusError,
          .logFatal "failed to create the payment service"], .exitFatal)
    | none =>
      let t2 := t1 ++ [.register .payment,
        .logInfo "Starting the subscriptions service",
        .spanAddEvent "Starting the subscriptions service",
        .construct .subscription, .register .subscription,
        .goServeGrpc, .spanEnd, .serveHTTP]
      let serveLog : List Event :=
        match env.httpErr with
        | some e => if e = GoErr.serverClosed then [] else [.logError "failed to serve"]
        | none => []
      let t3 := t2 ++ serveLog ++ [.logInfo "Stopping the all-i-one service"]
      let d := runDefers env [.paymentShutdownB, .closerCall]
      (t3 ++ d.1, outcomeOfDefers d.2)

/-- Variant A's gRPC serving goroutine body: `err = grpcServer.Serve(lis);
if err != nil { logger.Fatal("Failed to server", ...) }`. -/
def grpcLoopA (serveErr : Option GoErr) : List Event × Outcome :=
  match serveErr with
  | some _ => ([.logFatal "Failed to server"], .exitFatal)
  | none => ([], .returned)

/-- Variant B's gRPC serving goroutine body: on error, records it on the
span and calls `logger.Fatal("failed to server", ...)`. -/
def grpcLoopB (serveErr : Option GoErr) : List Event × Outcome :=
  match serveErr with
  | some _ =>
      ([.spanRecordError, .spanSetStatusError, .logFatal "failed to server"], .exitFatal)
  | none => ([], .returned)

/-- Recognizer for fatal-severity log entries. -/
def isFatal : Event → Bool
  | .logFatal _ => true
  | _ => false

/-- Number of fatal-severity log entries in a trace. -/
def fatalCount (t : List Event) : Nat := (t.filter isFatal).length

/-- Recognizer for the telemetry-teardown invocation. -/
def isCloser : Event → Bool
  | .callCloser => true
  | _ => false

/-- Recognizer for a payment-shutdown invocation. -/
def isShutdown : Event → Bool
  | .callShutdown => true
  | _ => false

/-- Number of telemetry-teardown invocations in a trace. -/
def closerCount (t : List Event) : Nat := (t.filter isCloser).length

/-- Number of payment-shutdown invocations in a trace. -/
def shutdownCount (t : List Event) : Nat := (t.filter isShutdown).length

/-- Last event of a trace, if any. -/
def lastEvent : List Event → Option Event
  | [] => none
  | [e] => some e
  | _ :: e :: es => lastEvent (e :: es)

/-- Second-to-last event of a trace, if any. -/
def beforeLast : List Event → Option Event
  | [] => none
  | [_] => none
  | [e, _] => some e
  | _ :: e :: e2 :: es => beforeLast (e :: e2 :: es)

/-- Environment of the fully successful run: every collaborator call
succeeds and the text-transport serving call returns without error. -/
def okEnv : Env :=
  { setupErr := none, closerNil := false, configErr := none,
    listenErr := none, payErr := none, shutdownErr := none, httpErr := none }

/-- Claim C1 (code bug): the claim says a config-load error is reported
through telemetry and aborts startup before any listener is bound or module
constructed.  The code discards the error: in a run where only the config
load fails (variant A, and variant B where the stale telemetry error is
nil), both variants bind the listener, construct and register every module,
record nothing on the span, log nothing at fatal severity, and run to
normal completion with the zero-value configuration. -/
theorem C1_config_error_discarded :
    (mainA { okEnv with configErr := some (GoErr.other 0) }).2 = Outcome.returned
    ∧ Event.listen ∈ (mainA { okEnv with configErr := some (GoErr.other 0) }).1
    ∧ Event.construct .user ∈ (mainA { okEnv with configErr := some (GoErr.other 0) }).1
    ∧ Event.register .payment ∈ (mainA { okEnv with configErr := some (GoErr.other 0) }).1
    ∧ fatalCount (mainA { okEnv with configErr := some (GoErr.other 0) }).1 = 0
    ∧ (mainB { okEnv with configErr := some (GoErr.other 0) }).2 = Outcome.returned
    ∧ Event.listen ∈ (mainB { okEnv with configErr := some (GoErr.other 0) }).1
    ∧ Event.construct .user ∈ (mainB { okEnv with configErr := some (GoErr.other 0) }).1
    ∧ Event.register .payment ∈ (mainB { okEnv with configErr := some (GoErr.other 0) }).1
    ∧ Event.spanRecordError ∉ (mainB { okEnv with configErr := some (GoErr.other 0) }).1
    ∧ fatalCount (mainB { okEnv with configErr := some (GoErr.other 0) }).1 = 0 := by
  decide

/-- Claim C2 counterexample: on the exit path where binding the gRPC
listener fails, variant A exits via `logger.Fatal` (`os.Exit`) and the
telemetry teardown handle is never invoked — refuting "invoked exactly once
... on every exit path". -/
theorem C2_counterexample :
    (mainA { okEnv with listenErr := some (GoErr.other 0) }).2 = Outcome.exitFatal
    ∧ Event.callCloser ∉ (mainA { okEnv with listenErr := some (GoErr.other 0) }).1 := by
  decide

/-- Claim C2 (amended): with a non-nil teardown handle, on every exit path
that executes deferred calls (normal return and panic unwind — i.e. every
outcome other than `exitFatal`) the teardown is invoked exactly once and is
the last action of the run, after any module shutdown; on `logger.Fatal`
paths the process exits via `os.Exit` and the teardown is skipped. -/
theorem C2_teardown_last_on_defer_paths (env : Env) (h : env.closerNil = false) :
    ((mainA env).2 ≠ Outcome.exitFatal →
      lastEvent (mainA env).1 = some Event.callCloser ∧ closerCount (mainA env).1 = 1)
    ∧ ((mainA env).2 = Outcome.exitFatal → closerCount (mainA env).1 = 0)
    ∧ ((mainB env).2 ≠ Outcome.exitFatal →
      lastEvent (mainB env).1 = some Event.callCloser ∧ closerCount (mainB env).1 = 1)
    ∧ ((mainB env).2 = Outcome.exitFatal → closerCount (mainB env).1 = 0) := by
  obtain ⟨s, cn, cf, le, pe, se, he⟩ := env
  subst h
  rcases s with _ | es <;> rcases le with _ | el <;> rcases pe with _ | ep <;>
    rcases se with _ | e2 <;> rcases he with _ | (_ | n) <;>
    simp [mainA, mainB, runDefers, runDefer, outcomeOfDefers, closerCount,
      isCloser, lastEvent]

/-- Claim C2 witness: on the fully successful run the teardown is the last
event and runs exactly once. -/
theorem C2_teardown_last_witness :
    lastEvent (mainA okEnv).1 = some Event.callCloser ∧ closerCount (mainA okEnv).1 = 1 :=
  (C2_teardown_last_on_defer_paths okEnv rfl).1 (by decide)

/-- Claim C3 (code bug): the claim says a shutdown-operation error is
recorded and never prevents subsequent cleanups nor escalates to fatal.  In
variant B, when the payment shutdown fails on the normal exit path, the
deferred closure records the error but then calls `logger.Fatal`
(`os.Exit`): the process exits fatally and the telemetry teardown is
skipped.  In variant A the same failing shutdown is invoked but its error
is silently discarded (nothing recorded), though the teardown still runs. -/
theorem C3_shutdown_error_escalates :
    (mainB { okEnv with shutdownErr := some (GoErr.other 0) }).2 = Outcome.exitFatal
    ∧ Event.callCloser ∉ (mainB { okEnv with shutdownErr := some (GoErr.other 0) }).1
    ∧ Event.logFatal "Failed to shutdown the payment service"
        ∈ (mainB { okEnv with shutdownErr := some (GoErr.other 0) }).1
    ∧ Event.spanRecordError ∈ (mainB { okEnv with shutdownErr := some (GoErr.other 0) }).1
    ∧ Event.callShutdown ∈ (mainA { okEnv with shutdownErr := some (GoErr.other 0) }).1
    ∧ Event.spanRecordError ∉ (mainA { okEnv with shutdownErr := some (GoErr.other 0) }).1
    ∧ Event.callCloser ∈ (mainA { okEnv with shutdownErr := some (GoErr.other 0) }).1 := by
  decide

/-- Claim C4 (code bug): the claim says a telemetry-setup error is reported
on the fallback channel and the full startup sequence still runs.  Variant
B re-tests the stale telemetry-setup error after `config.LoadConfig` and
exits via `logger.Fatal("failed to load the config")` before binding any
listener — a telemetry-setup error alone aborts the process.  Variant A, at
the same input, does continue through the whole sequence. -/
theorem C4_setup_error_fatal_in_B :
    (mainB { okEnv with setupErr := some (GoErr.other 0) }).2 = Outcome.exitFatal
    ∧ Event.printf "Failed to setup telemetry"
        ∈ (mainB { okEnv with setupErr := some (GoErr.other 0) }).1
    ∧ Event.logFatal "failed to load the config"
        ∈ (mainB { okEnv with setupErr := some (GoErr.other 0) }).1
    ∧ Event.listen ∉ (mainB { okEnv with setupErr := some (GoErr.other 0) }).1
    ∧ (mainA { okEnv with setupErr := some (GoErr.other 0) }).2 = Outcome.returned
    ∧ Event.serveHTTP ∈ (mainA { okEnv with setupErr := some (GoErr.other 0) }).1 := by
  decide

/-- Claim C5 (code bug): the claim says the listener-closed error from the
text transport's serving call is distinguished from every other error and
not logged at fatal severity.  Variant A logs `http.ErrServerClosed` at
fatal severity and exits via `os.Exit` like any other serve error; only
variant B distinguishes it (its run ends normally with no fatal log). -/
theorem C5_server_closed_fatal_in_A :
    (mainA { okEnv with httpErr := some GoErr.serverClosed }).2 = Outcome.exitFatal
    ∧ Event.logFatal "Failed to serve"
        ∈ (mainA { okEnv with httpErr := some GoErr.serverClosed }).1
    ∧ (mainB { okEnv with httpErr := some GoErr.serverClosed }).2 = Outcome.returned
    ∧ fatalCount (mainB { okEnv with httpErr := some GoErr.serverClosed }).1 = 0 := by
  decide

/-- Claim C6 (confirmed): in every run where binding the gRPC listener
fails, both variants exit fatally before any serving loop starts: the gRPC
serving goroutine is never spawned, the text serving call never runs, no
module is constructed or registered, and no shutdown operation is ever
invoked. -/
theorem C6_bind_failure_aborts (env : Env) (e : GoErr) (h : env.listenErr = some e) :
    (mainA env).2 = Outcome.exitFatal
    ∧ Event.goServeGrpc ∉ (mainA env).1
    ∧ Event.serveHTTP ∉ (mainA env).1
    ∧ Event.construct .user ∉ (mainA env).1
    ∧ Event.construct .plan ∉ (mainA env).1
    ∧ Event.construct .payment ∉ (mainA env).1
    ∧ Event.construct .subscription ∉ (mainA env).1
    ∧ Event.callShutdown ∉ (mainA env).1
    ∧ (mainB env).2 = Outcome.exitFatal
    ∧ Event.goServeGrpc ∉ (mainB env).1
    ∧ Event.serveHTTP ∉ (mainB env).1
    ∧ Event.construct .user ∉ (mainB env).1
    ∧ Event.construct .plan ∉ (mainB env).1
    ∧ Event.construct .payment ∉ (mainB env).1
    ∧ Event.construct .subscription ∉ (mainB env).1
    ∧ Event.callShutdown ∉ (mainB env).1 := by
  obtain ⟨s, cn, cf, le, pe, se, he⟩ := env
  simp only at h
  subst h
  rcases s with _ | es <;>
    simp [mainA, mainB, runDefers, runDefer, outcomeOfDefers]

/-- Claim C6 witness: the bind-failure guarantee at a concrete run. -/
theorem C6_bind_failure_witness :
    (mainA { okEnv with listenErr := some (GoErr.other 7) }).2 = Outcome.exitFatal
    ∧ Event.goServeGrpc ∉ (mainA { okEnv with listenErr := some (GoErr.other 7) }).1
    ∧ Event.serveHTTP ∉ (mainA { okEnv with listenErr := some (GoErr.other 7) }).1
    ∧ Event.construct .user ∉ (mainA { okEnv with listenErr := some (GoErr.other 7) }).1
    ∧ Event.construct .plan ∉ (mainA { okEnv with listenErr := some (GoErr.other 7) }).1
    ∧ Event.construct .payment ∉ (mainA { okEnv with listenErr := some (GoErr.other 7) }).1
    ∧ Event.construct .subscription ∉ (mainA { okEnv with listenErr := some (GoErr.other 7) }).1
    ∧ Event.callShutdown ∉ (mainA { okEnv with listenErr := some (GoErr.other 7) }).1
    ∧ (mainB { okEnv with listenErr := some (GoErr.other 7) }).2 = Outcome.exitFatal
    ∧ Event.goServeGrpc ∉ (mainB { okEnv with listenErr := some (GoErr.other 7) }).1
    ∧ Event.serveHTTP ∉ (mainB { okEnv with listenErr := some (GoErr.other 7) }).1
    ∧ Event.construct .user ∉ (mainB { okEnv with listenErr := some (GoErr.other 7) }).1
    ∧ Event.construct .plan ∉ (mainB { okEnv with listenErr := some (GoErr.other 7) }).1
    ∧ Event.construct .payment ∉ (mainB { okEnv with listenErr := some (GoErr.other 7) }).1
    ∧ Event.construct .subscription ∉ (mainB { okEnv with listenErr := some (GoErr.other 7) }).1
    ∧ Event.callShutdown ∉ (mainB { okEnv with listenErr := some (GoErr.other 7) }).1 :=
  C6_bind_failure_aborts { okEnv with listenErr := some (GoErr.other 7) } (GoErr.other 7) rfl

/-- Claim C7 counterexample: the payment module's shutdown operation is
registered during a successful startup, but when the text serving call then
fails, variant A exits via `logger.Fatal` (`os.Exit`) and the operation is
executed zero times — refuting "executes each contributed shutdown
operation exactly once ... even when startup unwinds early after a later
step fails". -/
theorem C7_counterexample :
    Event.register .payment ∈ (mainA { okEnv with httpErr := some (GoErr.other 0) }).1
    ∧ Event.callShutdown ∉ (mainA { okEnv with httpErr := some (GoErr.other 0) }).1
    ∧ (mainA { okEnv with httpErr := some (GoErr.other 0) }).2 = Outcome.exitFatal := by
  decide

/-- Claim C7 (amended): on every run where startup completes (listener
bound, payment module constructed and registered) and the teardown handle
is non-nil, every exit path that executes the deferred cleanups (every
outcome other than an `os.Exit` fatal) executes the contributed shutdown
operation — the payment module's, the only one in this composition —
exactly once and in reverse registration order, immediately before the
telemetry teardown, which runs last.  On fatal exit paths the operation is
skipped (executed zero times in variant A), except that in variant B a
fatal exit after startup can also be caused by the shutdown operation
itself failing — or by the stale telemetry-error check — and then the
operation has executed exactly once resp. zero times. -/
theorem C7_shutdown_reverse_order (env : Env)
    (hl : env.listenErr = none) (hp : env.payErr = none) (hc : env.closerNil = false) :
    ((mainA env).2 ≠ Outcome.exitFatal →
      shutdownCount (mainA env).1 = 1
      ∧ beforeLast (mainA env).1 = some Event.callShutdown
      ∧ lastEvent (mainA env).1 = some Event.callCloser)
    ∧ ((mainA env).2 = Outcome.exitFatal → shutdownCount (mainA env).1 = 0)
    ∧ ((mainB env).2 ≠ Outcome.exitFatal →
      shutdownCount (mainB env).1 = 1
      ∧ beforeLast (mainB env).1 = some Event.callShutdown
      ∧ lastEvent (mainB env).1 = some Event.callCloser)
    ∧ ((mainB env).2 = Outcome.exitFatal →
      (env.setupErr ≠ none ∧ shutdownCount (mainB env).1 = 0)
      ∨ (env.shutdownErr ≠ none ∧ shutdownCount (mainB env).1 = 1)) := by
  obtain ⟨s, cn, cf, le, pe, se, he⟩ := env
  simp only at hl hp hc
  subst hl; subst hp; subst hc
  rcases s with _ | es <;> rcases se with _ | e2 <;> rcases he with _ | (_ | n) <;>
    simp [mainA, mainB, runDefers, runDefer, outcomeOfDefers, shutdownCount,
      isShutdown, beforeLast, lastEvent]

/-- Claim C7 witness: reverse shutdown order on variant B's clean
administrative stop (the serving call returns the listener-closed error and
the process exits along the deferred-cleanup path). -/
theorem C7_shutdown_reverse_order_witness :
    shutdownCount (mainB { okEnv with httpErr := some GoErr.serverClosed }).1 = 1
    ∧ beforeLast (mainB { okEnv with httpErr := some GoErr.serverClosed }).1
        = some Event.callShutdown
    ∧ lastEvent (mainB { okEnv with httpErr := some GoErr.serverClosed }).1
        = some Event.callCloser :=
  (C7_shutdown_reverse_order { okEnv with httpErr := some GoErr.serverClosed }
    rfl rfl rfl).2.2.1 (by decide)

/-- Claim C8 (confirmed): in every run that reaches the payment module's
construction and the construction returns an error, the run is fatal —
variant A panics, variant B exits via `logger.Fatal` — the payment module
is never registered, no later module (subscription) is constructed or
registered, and no serving loop starts. -/
theorem C8_payment_construction_fatal (env : Env) (e : GoErr)
    (hse : env.setupErr = none) (hl : env.listenErr = none) (hp : env.payErr = some e) :
    (mainA env).2 = Outcome.panicked
    ∧ Event.register .payment ∉ (mainA env).1
    ∧ Event.construct .subscription ∉ (mainA env).1
    ∧ Event.register .subscription ∉ (mainA env).1
    ∧ Event.goServeGrpc ∉ (mainA env).1
    ∧ Event.serveHTTP ∉ (mainA env).1
    ∧ (mainB env).2 = Outcome.exitFatal
    ∧ Event.register .payment ∉ (mainB env).1
    ∧ Event.construct .subscription ∉ (mainB env).1
    ∧ Event.register .subscription ∉ (mainB env).1
    ∧ Event.goServeGrpc ∉ (mainB env).1
    ∧ Event.serveHTTP ∉ (mainB env).1 := by
  obtain ⟨s, cn, cf, le, pe, se, he⟩ := env
  simp only at hse hl hp
  subst hse; subst hl; subst hp
  cases cn <;>
    simp [mainA, mainB, runDefers, runDefer, outcomeOfDefers]

/-- Claim C8 witness: the fail-fast guarantee at a concrete run. -/
theorem C8_payment_construction_witness :
    (mainA { okEnv with payErr := some (GoErr.other 3) }).2 = Outcome.panicked
    ∧ Event.register .payment ∉ (mainA { okEnv with payErr := some (GoErr.other 3) }).1
    ∧ Event.construct .subscription ∉ (mainA { okEnv with payErr := some (GoErr.other 3) }).1
    ∧ Event.register .subscription ∉ (mainA { okEnv with payErr := some (GoErr.other 3) }).1
    ∧ Event.goServeGrpc ∉ (mainA { okEnv with payErr := some (GoErr.other 3) }).1
    ∧ Event.serveHTTP ∉ (mainA { okEnv with payErr := some (GoErr.other 3) }).1
    ∧ (mainB { okEnv with payErr := some (GoErr.other 3) }).2 = Outcome.exitFatal
    ∧ Event.register .payment ∉ (mainB { okEnv with payErr := some (GoErr.other 3) }).1
    ∧ Event.construct .subscription ∉ (mainB { okEnv with payErr := some (GoErr.other 3) }).1
    ∧ Event.register .subscription ∉ (mainB { okEnv with payErr := some (GoErr.other 3) }).1
    ∧ Event.goServeGrpc ∉ (mainB { okEnv with payErr := some (GoErr.other 3) }).1
    ∧ Event.serveHTTP ∉ (mainB { okEnv with payErr := some (GoErr.other 3) }).1 :=
  C8_payment_construction_fatal { okEnv with payErr := some (GoErr.other 3) }
    (GoErr.other 3) rfl rfl rfl

/-- Claim C9 counterexample: in variant B an unexpected error (not the
clean-shutdown signal) from the text serving call is logged at Error
severity, the trace contains no fatal-severity entry at all, and the run
ends as a normal return — refuting "recorded through telemetry at fatal
severity ... symmetrically for both loops". -/
theorem C9_counterexample :
    Event.logError "failed to serve" ∈ (mainB { okEnv with httpErr := some (GoErr.other 0) }).1
    ∧ fatalCount (mainB { okEnv with httpErr := some (GoErr.other 0) }).1 = 0
    ∧ (mainB { okEnv with httpErr := some (GoErr.other 0) }).2 = Outcome.returned := by
  decide

/-- Claim C9 (amended): an error from the binary serving loop is logged at
fatal severity and exits the process in both variants; an error from the
text serving loop is logged at fatal severity and exits the process in
variant A, but in variant B an unexpected text-loop error is logged at
Error severity and the process then terminates by running its deferred
cleanups and returning — the fatal-severity guarantee is not symmetric. -/
theorem C9_serving_loop_error_policy (e : GoErr) (env : Env)
    (hse : env.setupErr = none) (hl : env.listenErr = none) (hp : env.payErr = none)
    (hsd : env.shutdownErr = none) (hc : env.closerNil = false)
    (hh : env.httpErr = some e) :
    (grpcLoopA (some e)).2 = Outcome.exitFatal
    ∧ Event.logFatal "Failed to server" ∈ (grpcLoopA (some e)).1
    ∧ (grpcLoopB (some e)).2 = Outcome.exitFatal
    ∧ Event.logFatal "failed to server" ∈ (grpcLoopB (some e)).1
    ∧ (mainA env).2 = Outcome.exitFatal
    ∧ Event.logFatal "Failed to serve" ∈ (mainA env).1
    ∧ (e ≠ GoErr.serverClosed →
        (mainB env).2 = Outcome.returned
        ∧ Event.logError "failed to serve" ∈ (mainB env).1
        ∧ fatalCount (mainB env).1 = 0) := by
  obtain ⟨s, cn, cf, le, pe, se, he⟩ := env
  simp only at hse hl hp hsd hc hh
  subst hse; subst hl; subst hp; subst hsd; subst hc; subst hh
  rcases e with _ | n <;>
    simp [mainA, mainB, grpcLoopA, grpcLoopB, runDefers, runDefer,
      outcomeOfDefers, fatalCount, isFatal]

/-- Claim C9 witness: the asymmetric serving-loop policy at a concrete
unexpected error. -/
theorem C9_serving_loop_error_witness :
    (grpcLoopA (some (GoErr.other 0))).2 = Outcome.exitFatal
    ∧ Event.logFatal "Failed to server" ∈ (grpcLoopA (some (GoErr.other 0))).1
    ∧ (grpcLoopB (some (GoErr.other 0))).2 = Outcome.exitFatal
    ∧ Event.logFatal "failed to server" ∈ (grpcLoopB (some (GoErr.other 0))).1
    ∧ (mainA { okEnv with httpErr := some (GoErr.other 0) }).2 = Outcome.exitFatal
    ∧ Event.logFatal "Failed to serve" ∈ (mainA { okEnv with httpErr := some (GoErr.other 0) }).1
    ∧ (GoErr.other 0 ≠ GoErr.serverClosed →
        (mainB { okEnv with httpErr := some (GoErr.other 0) }).2 = Outcome.returned
        ∧ Event.logError "failed to serve" ∈ (mainB { okEnv with httpErr := some (GoErr.other 0) }).1
        ∧ fatalCount (mainB { okEnv with httpErr := some (GoErr.other 0) }).1 = 0) :=
  C9_serving_loop_error_policy (GoErr.other 0) { okEnv with httpErr := some (GoErr.other 0) }
    rfl rfl rfl rfl rfl rfl

/-- Claim C10 (confirmed): in variant A, when telemetry setup returns an
error together with a nil teardown handle, every exit path that executes
deferred calls (i.e. every outcome other than an `os.Exit` fatal) ends by
invoking the nil handle: the run's last event is the nil-function panic and
the process dies panicking instead of exiting cleanly. -/
theorem C10_nil_closer_panics (env : Env) (e : GoErr)
    (hse : env.setupErr = some e) (hc : env.closerNil = true)
    (hd : (mainA env).2 ≠ Outcome.exitFatal) :
    (mainA env).2 = Outcome.panicked
    ∧ lastEvent (mainA env).1 = some Event.nilCloserPanic := by
  obtain ⟨s, cn, cf, le, pe, se, he⟩ := env
  simp only at hse hc hd
  subst hse; subst hc
  rcases le with _ | el <;> rcases pe with _ | ep <;> rcases he with _ | eh <;>
    simp [mainA, runDefers, runDefer, outcomeOfDefers, lastEvent] at hd ⊢

/-- Claim C10 witness: the otherwise fully successful run with a failed
telemetry setup and nil teardown handle ends in the nil-function panic. -/
theorem C10_nil_closer_panics_witness :
    (mainA { okEnv with setupErr := some (GoErr.other 0), closerNil := true }).2
        = Outcome.panicked
    ∧ lastEvent (mainA { okEnv with setupErr := some (GoErr.other 0), closerNil := true }).1
        = some Event.nilCloserPanic :=
  C10_nil_closer_panics { okEnv with setupErr := some (GoErr.other 0), closerNil := true }
    (GoErr.other 0) rfl rfl (by decide)

end AllInOne
